import Mathlib

/-!
Verification development for the greenspace-detection-platform job
orchestrator.  The definitions below are a shallow embedding of the
TypeScript source:

* `src/greenspace-app/src/lib/processing-store.ts` (the Job Registry),
* `src/greenspace-app/src/app/api/process/route.ts` (driver, worker pool,
  task unit executor, aggregator),
* `src/unnamed/part_009` (the pull `GET` status route with the
  durable-file fallback).

JavaScript numbers are modelled as `ℚ` (all values appearing in the
orchestrator are exact decimals and results of `+ - * /` on them), dates
as epoch milliseconds (`Nat`), and fallible external calls as `Except`.
-/

namespace Greenspace

/-- `status` values of a job, from the `ProcessingStatus` union type in
`types.ts`: `'pending' | 'downloading' | 'preprocessing' | 'processing' |
'completed' | 'failed'`. -/
inductive JobStatus
  | pending
  | downloading
  | preprocessing
  | processing
  | completed
  | failed
deriving DecidableEq, Repr

/-- A status is terminal when it is `completed` or `failed`. -/
def JobStatus.isTerminal : JobStatus → Bool
  | .completed => true
  | .failed => true
  | _ => false

/-- `'baseline' | 'compare'` role of an annual work unit. -/
inductive Role
  | baseline
  | compare
deriving DecidableEq, Repr

/-- One preview entry appended to `result.previews` (shape of the object
built at `process/route.ts` lines 141 and 335). -/
structure Preview where
  label : String
  image : String
  month : Nat
  year : Int
  previewType : Role
  veg : ℚ
  cloud : ℚ
  highPct : ℚ
  medPct : ℚ
  lowPct : ℚ
  cityName : Option String
deriving DecidableEq, Repr

/-- The vegetation analysis summary JSON read back from a worker run
(fields of `vegetation_analysis_summary.json` that the route reads). -/
structure VegSummary where
  vegetation_percentage : ℚ
  high_density_percentage : ℚ
  medium_density_percentage : ℚ
  low_density_percentage : ℚ
  images_found : ℚ
  images_processed : ℚ
  ndvi_mean : ℚ
  cloud_excluded_percentage : ℚ
  vegetation_pixels : ℚ
deriving DecidableEq, Repr

/-- The `annualComparison` object built at `process/route.ts` lines
396-404. -/
structure AnnualComparison where
  baselineYear : Int
  compareYear : Int
  baselineVegetation : ℚ
  compareVegetation : ℚ
  percentChange : ℚ
deriving DecidableEq, Repr

/-- One element of `batchSummaries` (the object pushed at
`process/route.ts` lines 234-253); `city` is modelled by its name. -/
structure CityAnnualSummary where
  cityName : String
  baselineYear : Int
  compareYear : Int
  baselineVegetation : ℚ
  compareVegetation : ℚ
  percentChange : ℚ
  monthlyNdviMeanBaseline : List ℚ
  monthlyNdviMeanCompare : List ℚ
  monthlyVegBaseline : List ℚ
  monthlyVegCompare : List ℚ
  monthlyHectaresBaseline : List ℚ
  monthlyHectaresCompare : List ℚ
  highPct : ℚ
  medPct : ℚ
  lowPct : ℚ
  cloudExcludedPct : ℚ
  vegetationPct : ℚ
  changeVisualization : Option String
deriving DecidableEq, Repr

/-- The nested `result` object of a `ProcessingStatus` (`types.ts` lines
117-130).  Fields that are optional in the interface (or only present in
some modes) are `Option`s; `changeVisualization` is modelled as the raw
stats blob. -/
structure JobResult where
  downloadedImages : ℚ
  processedComposites : ℚ
  vegetationPercentage : ℚ
  highDensityPercentage : ℚ
  mediumDensityPercentage : ℚ
  lowDensityPercentage : ℚ
  ndviThreshold : Option ℚ
  outputFiles : List String
  summary : Option VegSummary
  annualComparison : Option AnnualComparison
  previews : Option (List Preview)
  batchSummaries : Option (List CityAnnualSummary)
  changeVisualization : Option String
deriving DecidableEq, Repr

/-- A full job snapshot (`ProcessingStatus` in `types.ts`).  Dates are
epoch milliseconds. -/
structure ProcessingStatus where
  id : String
  status : JobStatus
  progress : ℚ
  message : String
  startTime : Nat
  endTime : Option Nat
  result : Option JobResult
deriving DecidableEq, Repr

/-- A `Partial<ProcessingStatus>` as passed to `updateProcessingJob`: a
field that is `none` is absent from the partial object.  Callers in the
source never put `id` in a partial, so it is not modelled. -/
structure StatusUpdate where
  status : Option JobStatus := none
  progress : Option ℚ := none
  message : Option String := none
  startTime : Option Nat := none
  endTime : Option Nat := none
  result : Option JobResult := none
deriving DecidableEq, Repr

/-! ## Job Registry (`processing-store.ts`)

The module-level `Map` is modelled as a function from ids to optional
snapshots. -/

def Store : Type := String → Option ProcessingStatus

/-- The empty registry. -/
def Store.empty : Store := fun _ => none

/-- `getProcessingJob` (`processing-store.ts` line 8). -/
def getProcessingJob (s : Store) (id : String) : Option ProcessingStatus := s id

/-- `setProcessingJob` (`processing-store.ts` line 12): `Map.set`. -/
def setProcessingJob (s : Store) (id : String) (st : ProcessingStatus) : Store :=
  fun k => if k = id then some st else s k

/-- The JavaScript spread merge `{ ...currentStatus, ...updates }`
performed by `updateProcessingJob` (`processing-store.ts` line 19): every
field present in the partial replaces the stored field wholesale
(including the nested `result` object); absent fields keep their stored
values.  The `safeParseDate` normalization of `startTime`/`endTime` is
the identity here because the model's dates are already valid epoch
values. -/
def mergeStatus (cur : ProcessingStatus) (u : StatusUpdate) : ProcessingStatus :=
  { id := cur.id
    status := u.status.getD cur.status
    progress := u.progress.getD cur.progress
    message := u.message.getD cur.message
    startTime := u.startTime.getD cur.startTime
    endTime := match u.endTime with
      | some t => some t
      | none => cur.endTime
    result := match u.result with
      | some r => some r
      | none => cur.result }

/-- `updateProcessingJob` (`processing-store.ts` lines 16-34): merges the
partial into the stored snapshot; on an unknown id it logs an error and
leaves the store unchanged. -/
def updateProcessingJob (s : Store) (id : String) (u : StatusUpdate) : Store :=
  match s id with
  | some cur => setProcessingJob s id (mergeStatus cur u)
  | none => s

/-- Folds a sequence of partial updates for one job over the store. -/
def applyUpdates (s : Store) (id : String) (us : List StatusUpdate) : Store :=
  us.foldl (fun st u => updateProcessingJob st id u) s

/-- Merge of the nested `result` object field-by-field as the spec's
words describe it ("result object merged, not replaced"): every
always-present field takes the partial's value, every optional field
keeps its previous value when the partial's result lacks it.  This
definition follows the spec, not the source, and exists only to be
compared with `mergeStatus`. -/
def mergeResultSpec (old new : JobResult) : JobResult :=
  { downloadedImages := new.downloadedImages
    processedComposites := new.processedComposites
    vegetationPercentage := new.vegetationPercentage
    highDensityPercentage := new.highDensityPercentage
    mediumDensityPercentage := new.mediumDensityPercentage
    lowDensityPercentage := new.lowDensityPercentage
    ndviThreshold := match new.ndviThreshold with
      | some q => some q
      | none => old.ndviThreshold
    outputFiles := new.outputFiles
    summary := match new.summary with
      | some q => some q
      | none => old.summary
    annualComparison := match new.annualComparison with
      | some q => some q
      | none => old.annualComparison
    previews := match new.previews with
      | some q => some q
      | none => old.previews
    batchSummaries := match new.batchSummaries with
      | some q => some q
      | none => old.batchSummaries
    changeVisualization := match new.changeVisualization with
      | some q => some q
      | none => old.changeVisualization }

/-! ## Pull status route (`src/unnamed/part_009`)

`GET /api/status/[id]`: the in-memory snapshot, else the file-backed
`status.json` snapshot, else a 404.  The durable file tier is modelled as
a second map from ids to optional snapshots. -/

/-- Response of the pull route: a 200 with the snapshot, or the 404
`{ error: 'Processing job not found' }`. -/
inductive StatusResponse
  | ok (st : ProcessingStatus)
  | notFound
deriving DecidableEq, Repr

/-- The `GET` handler of `src/unnamed/part_009` lines 6-49. -/
def GETstatusById (mem : Store) (disk : String → Option ProcessingStatus)
    (id : String) : StatusResponse :=
  match getProcessingJob mem id with
  | some st => .ok st
  | none =>
    match disk id with
    | some st => .ok st
    | none => .notFound

/-! ## Task Unit Executor: progress protocol (`process/route.ts` 524-626)

`runPythonScript` parses each stdout line against `/PROGRESS:(\d+)/` and
writes one mapped progress value into the job per matching line.  Lines
are modelled as `List Char` and the regex search is implemented directly
below. -/

/-- If `cs` begins with the pattern `ps`, return the remaining suffix. -/
def matchPattern : List Char → List Char → Option (List Char)
  | [], cs => some cs
  | _, [] => none
  | p :: ps, c :: cs => if c = p then matchPattern ps cs else none

/-- Numeric value of a digit string, as `parseInt` computes it. -/
def digitsToNat (cs : List Char) : Nat :=
  cs.foldl (fun n c => n * 10 + (c.toNat - 48)) 0

/-- Search for `/PROGRESS:(\d+)/` in a line: the first position where the
marker `PROGRESS:` is followed by at least one digit yields the value of
its maximal digit run (the `line.includes('PROGRESS:')` guard in the
source is subsumed by the search). -/
def scanProgress : List Char → Option Nat
  | [] => none
  | c :: cs =>
    match matchPattern "PROGRESS:".data (c :: cs) with
    | some rest =>
      let ds := rest.takeWhile Char.isDigit
      if ds.isEmpty then scanProgress cs else some (digitsToNat ds)
    | none => scanProgress cs

/-- `getBaseProgressForScript` (`process/route.ts` lines 610-617). -/
def getBaseProgressForScript (scriptName : String) : ℚ :=
  if scriptName = "download_satellite_images.py" then 10
  else if scriptName = "preprocess_satellite_images.py" then 40
  else if scriptName = "vegetation_highlighter.py" then 70
  else 0

/-- `getProgressRangeForScript` (`process/route.ts` lines 619-626). -/
def getProgressRangeForScript (scriptName : String) : ℚ :=
  if scriptName = "download_satellite_images.py" then 30
  else if scriptName = "preprocess_satellite_images.py" then 30
  else if scriptName = "vegetation_highlighter.py" then 30
  else 10

/-- JavaScript `Math.round` on the orchestrator's nonnegative values:
half-up rounding. -/
def jsRound (q : ℚ) : Int := ⌊q + 1 / 2⌋

/-- The total progress written for one `PROGRESS:<p>` line
(`process/route.ts` lines 569-574):
`Math.round(base + scriptProgress * range / 100)`. -/
def mappedProgress (scriptName : String) (p : Nat) : Int :=
  jsRound (getBaseProgressForScript scriptName +
    (p * getProgressRangeForScript scriptName / 100))

/-- One external worker invocation as observed by `runPythonScript`: its
stdout lines, its exit code and its captured stderr. -/
structure PyRun where
  stdoutLines : List (List Char)
  exitCode : Int
  stderr : String
deriving DecidableEq, Repr

/-- The registry updates issued by `runPythonScript`'s stdout handler
(`process/route.ts` lines 558-586): one `{ progress }` update per line
matching `PROGRESS:(\d+)`, in line order, each written immediately. -/
def pyRunUpdates (scriptName : String) (r : PyRun) : List StatusUpdate :=
  r.stdoutLines.filterMap (fun line =>
    (scanProgress line).map (fun p =>
      ({ progress := some ((mappedProgress scriptName p : Int) : ℚ) } : StatusUpdate)))

/-- The settlement of `runPythonScript` (`process/route.ts` lines
594-601): resolve on exit code 0, otherwise reject with the composed
message. -/
def pyRunOutcome (scriptName : String) (r : PyRun) : Except String Unit :=
  if r.exitCode = 0 then .ok ()
  else .error ("Python script " ++ scriptName ++ " failed with code " ++
    toString r.exitCode ++ ": " ++ r.stderr)

/-! ## Worker Pool (`runWithConcurrency`, `process/route.ts` 87-108)

The promise pool is modelled as a transition system.  A state records the
index of the next factory to start (`index` in the source), the indices
of the started-but-unsettled tasks (whose count is the source's `active`
counter), and the `results` array, which tasks push into in completion
order.  `fill` is one run of the inner `while` loop of `schedule`; a
completion event removes one active task, pushes its result, and runs
`schedule` again (the `finally` callback).  Factories here always settle
with a value: every consumer in the source wraps its factories in
`try/catch`, so the `catch(reject)` path is never taken. -/

structure PoolState (α : Type) where
  nextIdx : Nat
  active : List Nat
  results : List α
deriving DecidableEq, Repr

/-- The `while (active < limit && index < tasks.length)` loop of
`schedule`: start queued factories in submission order until the limit
is reached or the queue is empty. -/
def fill (limit n : Nat) (s : PoolState α) : PoolState α :=
  let k := min (limit - s.active.length) (n - s.nextIdx)
  { nextIdx := s.nextIdx + k
    active := s.active ++ (List.range k).map (fun j => s.nextIdx + j)
    results := s.results }

/-- States reachable by `runWithConcurrency` on `n` task factories with
values `f` and concurrency `limit`: the initial `schedule()` call,
followed by any sequence of task completions (each of which pushes its
result and re-runs `schedule`). -/
inductive Reaches (f : Nat → α) (limit n : Nat) : PoolState α → Prop
  | init : Reaches f limit n (fill limit n ⟨0, [], []⟩)
  | step (s : PoolState α) (j : Nat) (hj : j ∈ s.active) :
      Reaches f limit n s →
      Reaches f limit n (fill limit n
        ⟨s.nextIdx, s.active.erase j, s.results ++ [f j]⟩)

/-- The resolution condition checked at the head of `schedule`:
`index >= tasks.length && active === 0`. -/
def poolResolved (n : Nat) (s : PoolState α) : Bool :=
  decide (n ≤ s.nextIdx) && s.active.isEmpty

/-! ## Aggregator (`process/route.ts` 110-301 and 303-467)

A month unit's execution either produces a result or fails (worker
rejection); the two modes treat failure differently, exactly as the two
`try/catch` shapes in the source do. -/

/-- The per-month record returned by `runMonthForCity` in batch mode
(`process/route.ts` lines 160-168). -/
structure MonthEntry where
  veg : ℚ
  ndviMean : ℚ
  highPct : ℚ
  medPct : ℚ
  lowPct : ℚ
  cloud : ℚ
  hectares : ℚ
deriving DecidableEq, Repr

/-- The zero record returned by the `catch` of a batch-mode task factory
(`process/route.ts` lines 176 and 179). -/
def zeroMonthEntry : MonthEntry := ⟨0, 0, 0, 0, 0, 0, 0⟩

/-- Batch-mode task wrapper: `try { return await runMonthForCity(...) }
catch { return { veg: 0, ... } }` — a failure becomes a zero-valued
entry. -/
def batchOutcome (o : Except String MonthEntry) : MonthEntry :=
  match o with
  | .ok r => r
  | .error _ => zeroMonthEntry

/-- Annual-mode task wrapper (`process/route.ts` lines 342-385): on
success the month's vegetation value is pushed onto `monthly`; the
`catch` only logs, so a failed month produces nothing. -/
def annualOutcome (o : Except String ℚ) : Option ℚ :=
  match o with
  | .ok v => some v
  | .error _ => none

/-- `avg` (`process/route.ts` line 189):
`arr => arr.length ? arr.reduce((a,b)=>a+b,0)/arr.length : 0`. -/
def avg (arr : List ℚ) : ℚ :=
  if arr.length = 0 then 0 else arr.foldl (fun a b => a + b) 0 / arr.length

/-- The aggregate returned by `runYearMonthly` (`process/route.ts` lines
388-390), previews omitted. -/
structure YearAgg where
  averageVegetation : ℚ
  monthlyCount : Nat
deriving DecidableEq, Repr

/-- `runYearMonthly`'s aggregation over the settled month outcomes
(`process/route.ts` lines 338-391): `monthly` holds the vegetation
values of the successful months (in completion order), and
`const count = monthly.length || 1;
 const avgVeg = monthly.reduce((s, r) => s + r.veg, 0) / count`. -/
def runYearMonthly (outcomes : List (Except String ℚ)) : YearAgg :=
  let monthly := outcomes.filterMap annualOutcome
  let count : Nat := if monthly.length = 0 then 1 else monthly.length
  { averageVegetation := monthly.foldl (fun s r => s + r) 0 / count
    monthlyCount := monthly.length }

/-- The `annualComparison` object (`process/route.ts` lines 396-404). -/
def mkAnnualComparison (baselineYear compareYear : Int)
    (baselineAgg compareAgg : YearAgg) : AnnualComparison :=
  { baselineYear := baselineYear
    compareYear := compareYear
    baselineVegetation := baselineAgg.averageVegetation
    compareVegetation := compareAgg.averageVegetation
    percentChange := if baselineAgg.averageVegetation ≠ 0 then
        (compareAgg.averageVegetation - baselineAgg.averageVegetation) /
          baselineAgg.averageVegetation * 100
      else 0 }

/-- One city's pass of the batch loop (`process/route.ts` lines 171-253):
every settled task contributes a `MonthEntry` (zero-valued on failure)
and the summary aggregates over all of them. -/
def cityAnnualSummaryOf (cityName : String) (baselineYear compareYear : Int)
    (baseOutcomes compOutcomes : List (Except String MonthEntry))
    (changeViz : Option String) : CityAnnualSummary :=
  let baseMonthly := baseOutcomes.map batchOutcome
  let compMonthly := compOutcomes.map batchOutcome
  let baselineVegetation := avg (baseMonthly.map MonthEntry.veg)
  let compareVegetation := avg (compMonthly.map MonthEntry.veg)
  { cityName := cityName
    baselineYear := baselineYear
    compareYear := compareYear
    baselineVegetation := baselineVegetation
    compareVegetation := compareVegetation
    percentChange := if baselineVegetation ≠ 0 then
        (compareVegetation - baselineVegetation) / baselineVegetation * 100
      else 0
    monthlyNdviMeanBaseline := baseMonthly.map MonthEntry.ndviMean
    monthlyNdviMeanCompare := compMonthly.map MonthEntry.ndviMean
    monthlyVegBaseline := baseMonthly.map MonthEntry.veg
    monthlyVegCompare := compMonthly.map MonthEntry.veg
    monthlyHectaresBaseline := baseMonthly.map MonthEntry.hectares
    monthlyHectaresCompare := compMonthly.map MonthEntry.hectares
    highPct := avg (compMonthly.map MonthEntry.highPct)
    medPct := avg (compMonthly.map MonthEntry.medPct)
    lowPct := avg (compMonthly.map MonthEntry.lowPct)
    cloudExcludedPct := avg (compMonthly.map MonthEntry.cloud)
    vegetationPct := compareVegetation
    changeVisualization := changeViz }

/-! ## Driver traces (`processInBackground`)

For the invariants about update ordering, each mode is modelled by the
sequence of `updateProcessingJob` partials it issues for the job,
parameterized over the observed worker behaviours (and, for the
concurrent modes, over an arbitrary interleaving of the per-month
events).  File-system writes are mirrored best-effort in the source
(wrapped in `try/catch`) and do not touch the registry, so they do not
appear in the traces. -/

/-- The first update of every mode (`process/route.ts` lines 68-72). -/
def initialUpdate : StatusUpdate :=
  { status := some .downloading
    progress := some 5
    message := some "Initializing satellite processing..." }

/-- The terminal update of the single-range mode on success
(`process/route.ts` lines 492-498). -/
def singleCompletedUpdate (now : Nat) (collected : JobResult) : StatusUpdate :=
  { status := some .completed
    progress := some 100
    message := some "Processing completed successfully!"
    endTime := some now
    result := some collected }

/-- The terminal update written by the driver's outer `catch`
(`process/route.ts` lines 509-514); `msg` is the thrown error's
message. -/
def jobFailedUpdate (now : Nat) (msg : String) : StatusUpdate :=
  { status := some .failed
    progress := some 0
    message := some ("Processing failed: " ++ msg)
    endTime := some now }

/-- The registry-update trace of single-range mode (`process/route.ts`
lines 68-72 and 468-519): the initial update, the progress updates of the
one `satellite_processor_fixed.py` run, then the terminal update — the
completion on exit 0, or the outer catch's failure update, since the
worker rejection is not wrapped in this mode. -/
def singleRangeTrace (r : PyRun) (collected : JobResult) (now : Nat) :
    List StatusUpdate :=
  initialUpdate ::
    (pyRunUpdates "satellite_processor_fixed.py" r ++
      [match pyRunOutcome "satellite_processor_fixed.py" r with
       | .ok _ => singleCompletedUpdate now collected
       | .error msg => jobFailedUpdate now msg])

/-- A mid-run registry event of annual mode: either a `PROGRESS` line of
some worker (`process/route.ts` lines 569-574, a bare progress update) or
one month task's completion update (`process/route.ts` lines 350-374,
always `status: 'processing'`).  `completedMonths` is the counter value
observed by that completion. -/
inductive AnnualEvent
  | workerLine (scriptName : String) (p : Nat)
  | monthDone (completedMonths : Nat) (veg : ℚ) (previews : List Preview)
      (message : String) (ndviThreshold : Option ℚ)
deriving Repr

/-- The partial written for one annual-mode event. -/
def annualEventUpdate : AnnualEvent → StatusUpdate
  | .workerLine scriptName p =>
    { progress := some ((mappedProgress scriptName p : Int) : ℚ) }
  | .monthDone completedMonths veg previews message ndviThreshold =>
    { status := some .processing
      progress := some ((min 95 (jsRound ((completedMonths : ℚ) / 24 * 95)) : Int) : ℚ)
      message := some message
      result := some
        { downloadedImages := (completedMonths : ℚ)
          processedComposites := (completedMonths : ℚ)
          vegetationPercentage := veg
          highDensityPercentage := 0
          mediumDensityPercentage := 0
          lowDensityPercentage := 0
          ndviThreshold := ndviThreshold
          outputFiles := []
          summary := none
          annualComparison := none
          previews := some previews
          batchSummaries := none
          changeVisualization := none } }

/-- The terminal update of annual mode (`process/route.ts` lines
443-461). -/
def annualCompletedUpdate (baselineYear compareYear : Int)
    (baseOutcomes compOutcomes : List (Except String ℚ))
    (outputFiles : List String) (changeViz : Option String)
    (previews : List Preview) (now : Nat) : StatusUpdate :=
  let baselineAgg := runYearMonthly baseOutcomes
  let compareAgg := runYearMonthly compOutcomes
  { status := some .completed
    progress := some 100
    message := some "Annual comparison (monthly best) completed successfully!"
    endTime := some now
    result := some
      { downloadedImages := (compareAgg.monthlyCount : ℚ)
        processedComposites := (compareAgg.monthlyCount : ℚ)
        vegetationPercentage := compareAgg.averageVegetation
        highDensityPercentage := 0
        mediumDensityPercentage := 0
        lowDensityPercentage := 0
        ndviThreshold := none
        outputFiles := outputFiles
        summary := none
        annualComparison :=
          some (mkAnnualComparison baselineYear compareYear baselineAgg compareAgg)
        previews := some previews
        batchSummaries := none
        changeVisualization := changeViz } }

/-- The registry-update trace of annual mode: the initial update, any
interleaving of worker lines and month completions (the pool introduces
no ordering guarantee), then the terminal update. -/
def annualTrace (events : List AnnualEvent) (baselineYear compareYear : Int)
    (baseOutcomes compOutcomes : List (Except String ℚ))
    (outputFiles : List String) (changeViz : Option String)
    (previews : List Preview) (now : Nat) : List StatusUpdate :=
  initialUpdate ::
    (events.map annualEventUpdate ++
      [annualCompletedUpdate baselineYear compareYear baseOutcomes compOutcomes
        outputFiles changeViz previews now])

/-- A mid-run registry event of batch mode: a worker `PROGRESS` line, a
preview append (`process/route.ts` lines 142-150, `status:
'processing'`), or a completed city's summary snapshot (`process/route.ts`
lines 255-271, `status: 'processing'`). -/
inductive BatchEvent
  | workerLine (scriptName : String) (p : Nat)
  | previewAppend (message : String) (result : JobResult)
  | cityDone (completedCities totalCities : Nat) (summaries : List CityAnnualSummary)
deriving Repr

/-- The `result` object written with every batch progress snapshot
(`process/route.ts` lines 259-270 and 283-294). -/
def batchResultOf (summaries : List CityAnnualSummary) : JobResult :=
  { downloadedImages := 0
    processedComposites := 0
    vegetationPercentage := 0
    highDensityPercentage := 0
    mediumDensityPercentage := 0
    lowDensityPercentage := 0
    ndviThreshold := none
    outputFiles := []
    summary := none
    annualComparison := none
    previews := none
    batchSummaries := some summaries
    changeVisualization := none }

/-- The partial written for one batch-mode event. -/
def batchEventUpdate : BatchEvent → StatusUpdate
  | .workerLine scriptName p =>
    { progress := some ((mappedProgress scriptName p : Int) : ℚ) }
  | .previewAppend message result =>
    { status := some .processing
      message := some message
      result := some result }
  | .cityDone completedCities totalCities summaries =>
    { status := some .processing
      progress := some ((min 95 (jsRound ((completedCities : ℚ) / totalCities * 95)) : Int) : ℚ)
      message := some ("Completed " ++ toString completedCities ++ "/" ++
        toString totalCities ++ " cities")
      result := some (batchResultOf summaries) }

/-- The terminal update of batch mode (`process/route.ts` lines
278-295). -/
def batchCompletedUpdate (summaries : List CityAnnualSummary) (now : Nat) :
    StatusUpdate :=
  { status := some .completed
    progress := some 100
    message := some "Batch annual comparison completed!"
    endTime := some now
    result := some (batchResultOf summaries) }

/-- The registry-update trace of batch mode. -/
def batchTrace (events : List BatchEvent) (summaries : List CityAnnualSummary)
    (now : Nat) : List StatusUpdate :=
  initialUpdate ::
    (events.map batchEventUpdate ++ [batchCompletedUpdate summaries now])

/-- Whether a partial update writes a terminal status. -/
def isTerminalUpdate (u : StatusUpdate) : Bool :=
  match u.status with
  | some st => st.isTerminal
  | none => false

/-- A trace writes a terminal status only at its last position. -/
def terminalOnlyLast (tr : List StatusUpdate) : Bool :=
  tr.dropLast.all (fun u => ! isTerminalUpdate u)

/-! ## Shared fixtures and helper lemmas -/

/-- The initial snapshot created by the `POST` handler (`process/route.ts`
lines 25-31). -/
def initialJob (id : String) (now : Nat) : ProcessingStatus :=
  { id := id
    status := .pending
    progress := 0
    message := "Initializing processing..."
    startTime := now
    endTime := none
    result := none }

/-- A sample worker summary. -/
def sampleSummary : VegSummary := ⟨50, 10, 20, 20, 3, 2, 1, 5, 1000⟩

/-- A stored result carrying a summary (as after a single-range run). -/
def sampleResult1 : JobResult :=
  { downloadedImages := 1
    processedComposites := 1
    vegetationPercentage := 50
    highDensityPercentage := 10
    mediumDensityPercentage := 20
    lowDensityPercentage := 20
    ndviThreshold := some 1
    outputFiles := ["veg.png"]
    summary := some sampleSummary
    annualComparison := none
    previews := some []
    batchSummaries := none
    changeVisualization := none }

/-- A partial's result listing no summary, shaped like the object built
at `process/route.ts` lines 360-371 (`summary: undefined`). -/
def sampleResult2 : JobResult :=
  { downloadedImages := 2
    processedComposites := 2
    vegetationPercentage := 60
    highDensityPercentage := 0
    mediumDensityPercentage := 0
    lowDensityPercentage := 0
    ndviThreshold := some 1
    outputFiles := []
    summary := none
    annualComparison := none
    previews := some []
    batchSummaries := none
    changeVisualization := none }

/-- A registry with one in-flight job. -/
def sampleJob : ProcessingStatus :=
  { id := "job-1"
    status := .processing
    progress := 40
    message := "working"
    startTime := 0
    endTime := none
    result := some sampleResult1 }

def store1 : Store := setProcessingJob Store.empty "job-1" sampleJob

/-- Folding addition starting from `a` adds the list's sum. -/
lemma foldl_add_eq (l : List ℚ) (a : ℚ) :
    l.foldl (fun s r => s + r) a = a + l.sum := by
  induction l generalizing a with
  | nil => simp
  | cons x xs ih => rw [List.foldl_cons, ih, List.sum_cons]; ring

/-! ## C5: Registry update merge -/

/-- C5 counterexample: updating `store1` with a partial whose `result`
lacks a summary replaces the stored `result` wholesale, erasing the
stored summary, whereas the field-by-field merge the claim describes
would keep it.  The nested result object is replaced, not merged. -/
theorem C5_counterexample_result_replaced :
    (getProcessingJob (updateProcessingJob store1 "job-1"
        { status := some .processing, message := some "m", result := some sampleResult2 })
      "job-1").map ProcessingStatus.result = some (some sampleResult2) ∧
    sampleResult1.summary = some sampleSummary ∧
    sampleResult2.summary = none ∧
    mergeResultSpec sampleResult1 sampleResult2 ≠ sampleResult2 := by
  decide

/-- C5 amended: `updateProcessingJob` shallow-merges the partial's
top-level fields into the stored snapshot — absent fields keep their
previous values — but a `result` present in the partial replaces the
stored `result` object wholesale rather than being merged
field-by-field. -/
theorem C5_amended_shallow_merge (s : Store) (id : String)
    (cur : ProcessingStatus) (u : StatusUpdate)
    (h : getProcessingJob s id = some cur) :
    getProcessingJob (updateProcessingJob s id u) id = some (mergeStatus cur u) ∧
    (u.status = none → (mergeStatus cur u).status = cur.status) ∧
    (u.progress = none → (mergeStatus cur u).progress = cur.progress) ∧
    (u.message = none → (mergeStatus cur u).message = cur.message) ∧
    (u.endTime = none → (mergeStatus cur u).endTime = cur.endTime) ∧
    (u.result = none → (mergeStatus cur u).result = cur.result) ∧
    (∀ r, u.result = some r → (mergeStatus cur u).result = some r) := by
  refine ⟨?_, ?_, ?_, ?_, ?_, ?_, ?_⟩
  · unfold getProcessingJob at h
    unfold updateProcessingJob getProcessingJob
    rw [h]
    simp [setProcessingJob]
  · intro h2; simp [mergeStatus, h2]
  · intro h2; simp [mergeStatus, h2]
  · intro h2; simp [mergeStatus, h2]
  · intro h2; simp [mergeStatus, h2]
  · intro h2; simp [mergeStatus, h2]
  · intro r h2; simp [mergeStatus, h2]

/-- Witness for C5's amended theorem at a concrete store. -/
theorem C5_amended_witness :
    getProcessingJob store1 "job-1" = some sampleJob ∧
    (getProcessingJob (updateProcessingJob store1 "job-1" { progress := some 55 }) "job-1" =
        some (mergeStatus sampleJob { progress := some 55 }) ∧
      (({ progress := some 55 } : StatusUpdate).status = none →
        (mergeStatus sampleJob { progress := some 55 }).status = sampleJob.status) ∧
      (({ progress := some 55 } : StatusUpdate).progress = none →
        (mergeStatus sampleJob { progress := some 55 }).progress = sampleJob.progress) ∧
      (({ progress := some 55 } : StatusUpdate).message = none →
        (mergeStatus sampleJob { progress := some 55 }).message = sampleJob.message) ∧
      (({ progress := some 55 } : StatusUpdate).endTime = none →
        (mergeStatus sampleJob { progress := some 55 }).endTime = sampleJob.endTime) ∧
      (({ progress := some 55 } : StatusUpdate).result = none →
        (mergeStatus sampleJob { progress := some 55 }).result = sampleJob.result) ∧
      (∀ r, ({ progress := some 55 } : StatusUpdate).result = some r →
        (mergeStatus sampleJob { progress := some 55 }).result = some r)) :=
  ⟨by decide, C5_amended_shallow_merge store1 "job-1" sampleJob _ (by decide)⟩

/-! ## C7: Pull status route -/

/-- C7: the pull `GET` returns the in-memory snapshot when one exists,
else the durable-file snapshot when one exists, and returns the 404
not-found response exactly when the id is absent from both tiers. -/
theorem C7_pull_get (mem : Store) (disk : String → Option ProcessingStatus)
    (id : String) (st stDisk : ProcessingStatus) :
    (getProcessingJob mem id = some st → GETstatusById mem disk id = .ok st) ∧
    (getProcessingJob mem id = none → disk id = some stDisk →
      GETstatusById mem disk id = .ok stDisk) ∧
    (GETstatusById mem disk id = .notFound ↔
      (getProcessingJob mem id = none ∧ disk id = none)) := by
  cases hm : getProcessingJob mem id with
  | some s0 => simp [GETstatusById, hm]
  | none =>
    cases hd : disk id with
    | some s1 => simp [GETstatusById, hm, hd]
    | none => simp [GETstatusById, hm, hd]

/-- Witness for C7 at concrete stores: a job in memory is served from
memory; a job only on disk is served from the file tier; a never-created
id is not found. -/
theorem C7_pull_get_witness :
    GETstatusById store1 (fun _ => none) "job-1" = .ok sampleJob ∧
    GETstatusById Store.empty
      (fun k => if k = "job-2" then some sampleJob else none) "job-2" = .ok sampleJob ∧
    GETstatusById Store.empty (fun _ => none) "never-created" = .notFound := by
  refine ⟨(C7_pull_get store1 (fun _ => none) "job-1" sampleJob sampleJob).1 (by decide),
    (C7_pull_get Store.empty _ "job-2" sampleJob sampleJob).2.1 (by decide) (by decide),
    (C7_pull_get Store.empty (fun _ => none) "never-created" sampleJob sampleJob).2.2.mpr
      ⟨rfl, rfl⟩⟩

/-! ## C2 and C3: progress protocol -/

/-- Characterization of JavaScript `Math.round` on the mapped values. -/
lemma jsRound_eq (q : ℚ) (z : Int) (h1 : (z : ℚ) ≤ q + 1 / 2)
    (h2 : q + 1 / 2 < z + 1) : jsRound q = z := by
  unfold jsRound
  rw [Int.floor_eq_iff]
  exact ⟨h1, by linarith⟩

lemma jsRound_bounds (q : ℚ) (lo hi : Int) (h1 : (lo : ℚ) ≤ q + 1 / 2)
    (h2 : q + 1 / 2 < (hi : ℚ) + 1) : lo ≤ jsRound q ∧ jsRound q ≤ hi := by
  constructor
  · exact Int.le_floor.mpr h1
  · have hlt : jsRound q < hi + 1 := by
      unfold jsRound
      exact Int.floor_lt.mpr (by push_cast; linarith)
    omega

/-- `filterMap` through an `Option.map` keeps one output per hit. -/
lemma length_filterMap_map {α β γ : Type} (l : List α) (g : α → Option β)
    (h : β → γ) :
    (l.filterMap (fun x => (g x).map h)).length = (l.filterMap g).length := by
  induction l with
  | nil => rfl
  | cons x xs ih =>
    cases hx : g x <;> simp [List.filterMap_cons, hx, ih]

/-- The one worker run of the C2 counterexample: a single
`PROGRESS:10` line and a clean exit. -/
def decreasingRun : PyRun := ⟨["PROGRESS:10".data], 0, ""⟩

/-- The job store right after the `POST` handler created the job. -/
def store0 : Store := setProcessingJob Store.empty "job-1" (initialJob "job-1" 0)

lemma scan_progress_ten :
    scanProgress ['P', 'R', 'O', 'G', 'R', 'E', 'S', 'S', ':', '1', '0'] = some 10 := by
  decide

lemma mapped_fixed_ten : mappedProgress "satellite_processor_fixed.py" 10 = 1 := by
  unfold mappedProgress
  rw [show getBaseProgressForScript "satellite_processor_fixed.py" = 0 by decide,
      show getProgressRangeForScript "satellite_processor_fixed.py" = 10 by decide]
  apply jsRound_eq <;> norm_num

lemma pyRunUpdates_decreasing :
    pyRunUpdates "satellite_processor_fixed.py" decreasingRun =
      [{ progress := some 1 }] := by
  simp only [pyRunUpdates, decreasingRun, List.filterMap_cons, List.filterMap_nil,
    scan_progress_ten, Option.map_some', mapped_fixed_ten, Int.cast_one]

/-- The concrete single-range trace of the counterexample. -/
lemma singleRangeTrace_decreasing :
    singleRangeTrace decreasingRun (batchResultOf []) 7 =
      [initialUpdate, { progress := some 1 },
        singleCompletedUpdate 7 (batchResultOf [])] := by
  unfold singleRangeTrace
  rw [show pyRunOutcome "satellite_processor_fixed.py" decreasingRun = .ok () from rfl,
    pyRunUpdates_decreasing]
  rfl

/-- C2 counterexample: in single-range mode the initialization update
sets `progress` to 5 with the non-terminal status `downloading`, and the
very next registry update — triggered by the worker line `PROGRESS:10`
of `satellite_processor_fixed.py`, which the stage table maps through
its default case (base 0, range 10) to 1 — writes progress 1 < 5 while
the job is still non-terminal. -/
theorem C2_counterexample_progress_decreases :
    (getProcessingJob (applyUpdates store0 "job-1"
        ((singleRangeTrace decreasingRun (batchResultOf []) 7).take 1)) "job-1").map
      (fun st => (st.status, st.progress)) = some (JobStatus.downloading, 5) ∧
    JobStatus.downloading.isTerminal = false ∧
    (getProcessingJob (applyUpdates store0 "job-1"
        ((singleRangeTrace decreasingRun (batchResultOf []) 7).take 2)) "job-1").map
      ProcessingStatus.progress = some 1 ∧
    (1 : ℚ) < 5 := by
  rw [singleRangeTrace_decreasing]
  refine ⟨?_, rfl, ?_, by norm_num⟩
  · simp [applyUpdates, store0, updateProcessingJob, getProcessingJob,
      setProcessingJob, mergeStatus, initialJob, initialUpdate]
  · simp [applyUpdates, store0, updateProcessingJob, getProcessingJob,
      setProcessingJob, mergeStatus, initialJob, initialUpdate]

/-- C2 amended: the registry applies whatever progress an update carries
(no monotonicity guard), and updates derived from worker `PROGRESS`
lines can undercut the job's current progress; what does hold is that
the per-script mapping is monotone — a script reporting a larger
percentage never maps below a smaller one, every script's range factor
being nonnegative — and that a successful single-range run ends with
progress 100. -/
theorem C2_amended_monotone_mapping (scriptName : String) (p q : Nat)
    (hpq : p ≤ q) (r : PyRun) (collected : JobResult) (now : Nat)
    (hok : pyRunOutcome "satellite_processor_fixed.py" r = .ok ()) :
    mappedProgress scriptName p ≤ mappedProgress scriptName q ∧
    0 ≤ getProgressRangeForScript scriptName ∧
    (singleRangeTrace r collected now).getLast? =
      some (singleCompletedUpdate now collected) ∧
    (singleCompletedUpdate now collected).progress = some 100 := by
  have hr : 0 ≤ getProgressRangeForScript scriptName := by
    unfold getProgressRangeForScript
    split_ifs <;> norm_num
  have hmono : mappedProgress scriptName p ≤ mappedProgress scriptName q := by
    unfold mappedProgress jsRound
    apply Int.floor_le_floor
    have hpq2 : (p : ℚ) ≤ (q : ℚ) := by exact_mod_cast hpq
    have := mul_le_mul_of_nonneg_right hpq2 hr
    linarith
  refine ⟨hmono, hr, ?_, rfl⟩
  unfold singleRangeTrace
  rw [hok, ← List.cons_append, List.getLast?_concat]

/-- Witness for C2's amended theorem. -/
theorem C2_amended_witness :
    3 ≤ 7 ∧
    pyRunOutcome "satellite_processor_fixed.py" decreasingRun = .ok () ∧
    (mappedProgress "download_satellite_images.py" 3 ≤
        mappedProgress "download_satellite_images.py" 7 ∧
      0 ≤ getProgressRangeForScript "download_satellite_images.py" ∧
      (singleRangeTrace decreasingRun (batchResultOf []) 7).getLast? =
        some (singleCompletedUpdate 7 (batchResultOf [])) ∧
      (singleCompletedUpdate 7 (batchResultOf [])).progress = some 100) :=
  ⟨by norm_num, rfl,
    C2_amended_monotone_mapping "download_satellite_images.py" 3 7 (by norm_num)
      decreasingRun (batchResultOf []) 7 rfl⟩

/-- C3 counterexample: the line `PROGRESS:100` in the download stage is
mapped to exactly 40 — the download stage's image is the closed interval
[10, 40], not [0, 40): at `p = 100` the written value 40 violates
`progress < 40`. -/
theorem C3_counterexample_download_hits_40 :
    pyRunUpdates "download_satellite_images.py" ⟨["PROGRESS:100".data], 0, ""⟩ =
      [{ progress := some 40 }] ∧
    ¬ ((40 : ℚ) < 40) := by
  have hscan :
      scanProgress ['P', 'R', 'O', 'G', 'R', 'E', 'S', 'S', ':', '1', '0', '0'] =
        some 100 := by
    decide
  have hmap : mappedProgress "download_satellite_images.py" 100 = 40 := by
    unfold mappedProgress
    rw [show getBaseProgressForScript "download_satellite_images.py" = 10 by decide,
        show getProgressRangeForScript "download_satellite_images.py" = 30 by decide]
    apply jsRound_eq <;> norm_num
  refine ⟨?_, by norm_num⟩
  simp only [pyRunUpdates, List.filterMap_cons, List.filterMap_nil, hscan,
    Option.map_some', hmap]
  norm_num

/-- C3 amended: for reported integers 0-100 the three stage scripts map
into [10, 40] (download), [40, 70] (preprocess) and [70, 100] (analyze)
— the bottom of the download stage is 10, not 0, and each stage attains
its upper endpoint at `p = 100` — and the stdout handler issues exactly
one registry update per line matching `PROGRESS:(\d+)`. -/
theorem C3_amended_stage_table (p : Nat) (hp : p ≤ 100) (scriptName : String)
    (r : PyRun) :
    (10 ≤ mappedProgress "download_satellite_images.py" p ∧
      mappedProgress "download_satellite_images.py" p ≤ 40) ∧
    (40 ≤ mappedProgress "preprocess_satellite_images.py" p ∧
      mappedProgress "preprocess_satellite_images.py" p ≤ 70) ∧
    (70 ≤ mappedProgress "vegetation_highlighter.py" p ∧
      mappedProgress "vegetation_highlighter.py" p ≤ 100) ∧
    (pyRunUpdates scriptName r).length =
      (r.stdoutLines.filterMap scanProgress).length := by
  have hp0 : (0 : ℚ) ≤ (p : ℚ) := Nat.cast_nonneg p
  have hp100 : (p : ℚ) ≤ 100 := by exact_mod_cast hp
  refine ⟨?_, ?_, ?_, ?_⟩
  · unfold mappedProgress
    rw [show getBaseProgressForScript "download_satellite_images.py" = 10 by decide,
        show getProgressRangeForScript "download_satellite_images.py" = 30 by decide]
    apply jsRound_bounds <;> push_cast <;> linarith
  · unfold mappedProgress
    rw [show getBaseProgressForScript "preprocess_satellite_images.py" = 40 by decide,
        show getProgressRangeForScript "preprocess_satellite_images.py" = 30 by decide]
    apply jsRound_bounds <;> push_cast <;> linarith
  · unfold mappedProgress
    rw [show getBaseProgressForScript "vegetation_highlighter.py" = 70 by decide,
        show getProgressRangeForScript "vegetation_highlighter.py" = 30 by decide]
    apply jsRound_bounds <;> push_cast <;> linarith
  · unfold pyRunUpdates
    exact length_filterMap_map r.stdoutLines scanProgress
      (fun p0 => ({ progress := some ((mappedProgress scriptName p0 : Int) : ℚ) } :
        StatusUpdate))

/-- Witness for C3's amended theorem at `p = 50`. -/
theorem C3_amended_witness :
    50 ≤ 100 ∧
    ((10 ≤ mappedProgress "download_satellite_images.py" 50 ∧
        mappedProgress "download_satellite_images.py" 50 ≤ 40) ∧
      (40 ≤ mappedProgress "preprocess_satellite_images.py" 50 ∧
        mappedProgress "preprocess_satellite_images.py" 50 ≤ 70) ∧
      (70 ≤ mappedProgress "vegetation_highlighter.py" 50 ∧
        mappedProgress "vegetation_highlighter.py" 50 ≤ 100) ∧
      (pyRunUpdates "satellite_processor_fixed.py" decreasingRun).length =
        (decreasingRun.stdoutLines.filterMap scanProgress).length) :=
  ⟨by norm_num,
    C3_amended_stage_table 50 (by norm_num) "satellite_processor_fixed.py" decreasingRun⟩

/-! ## C1, C6, C8: aggregation math and failure handling -/

lemma filterMap_annualOutcome_map_ok (l : List ℚ) :
    (l.map Except.ok).filterMap annualOutcome = l := by
  induction l with
  | nil => rfl
  | cons x xs ih => simp [List.filterMap_cons, annualOutcome, ih]

lemma filterMap_annualOutcome_replicate (n : Nat) (v : ℚ) :
    (List.replicate n (Except.ok v)).filterMap annualOutcome = List.replicate n v := by
  induction n with
  | zero => rfl
  | succ k ih => simp [List.replicate_succ, List.filterMap_cons, annualOutcome, ih]

/-- The annual-mode mean over an all-success month list of length `n`. -/
lemma runYearMonthly_map_ok (l : List ℚ) (h : l.length ≠ 0) :
    (runYearMonthly (l.map Except.ok)).averageVegetation = l.sum / l.length := by
  unfold runYearMonthly
  simp only [filterMap_annualOutcome_map_ok, foldl_add_eq, zero_add]
  rw [if_neg h]

lemma runYearMonthly_count (outcomes : List (Except String ℚ)) :
    (runYearMonthly outcomes).monthlyCount =
      (outcomes.filterMap annualOutcome).length := rfl

lemma cityAnnualSummaryOf_baseVeg (c : String) (y1 y2 : Int)
    (b k : List (Except String MonthEntry)) (cv : Option String) :
    (cityAnnualSummaryOf c y1 y2 b k cv).baselineVegetation =
      avg ((b.map batchOutcome).map MonthEntry.veg) := rfl

lemma cityAnnualSummaryOf_pctChange (c : String) (y1 y2 : Int)
    (b k : List (Except String MonthEntry)) (cv : Option String) :
    (cityAnnualSummaryOf c y1 y2 b k cv).percentChange =
      (if avg ((b.map batchOutcome).map MonthEntry.veg) ≠ 0 then
        (avg ((k.map batchOutcome).map MonthEntry.veg) -
            avg ((b.map batchOutcome).map MonthEntry.veg)) /
          avg ((b.map batchOutcome).map MonthEntry.veg) * 100
       else 0) := rfl

/-- C1 counterexample: in batch mode, a role with 11 successful months
(each with vegetation value 1) and 1 failed month gets mean 11/12 — the
failed month is counted as a zero value in a 12-month denominator —
whereas the arithmetic mean over the 11 months that produced a
`UnitResult` is 1. -/
theorem C1_counterexample_batch_mean :
    (cityAnnualSummaryOf "city" 2020 2024
        (List.replicate 11 (Except.ok (⟨1, 0, 0, 0, 0, 0, 0⟩ : MonthEntry)) ++
          [Except.error "worker failed"])
        (List.replicate 12 (Except.ok (⟨1, 0, 0, 0, 0, 0, 0⟩ : MonthEntry)))
        none).baselineVegetation = 11 / 12 ∧
    avg (List.replicate 11 (1 : ℚ)) = 1 ∧
    (11 / 12 : ℚ) ≠ 1 := by
  refine ⟨?_, ?_, by norm_num⟩
  · rw [cityAnnualSummaryOf_baseVeg]
    simp [avg, List.map_replicate, batchOutcome, zeroMonthEntry, foldl_add_eq,
      List.sum_replicate]
    norm_num
  · simp [avg, foldl_add_eq, List.sum_replicate]
    norm_num

/-- C1 amended: the two modes use different denominators.  In annual
(single-city) mode the mean is taken only over the months that produced
a `UnitResult` — 11 successes and 1 failure mean dividing by 11 — and
the per-role month count is exactly the number of successful months.
In batch mode a failed month is converted into a zero-valued entry that
is counted in the denominator: 11 successes of value `v` plus 1 failure
yield the mean `11 * v / 12`. -/
theorem C1_amended_mean_denominators (v : ℚ) (outcomes : List (Except String ℚ)) :
    (runYearMonthly (List.replicate 11 (Except.ok v) ++
        [Except.error "worker failed"])).averageVegetation = v ∧
    (runYearMonthly (List.replicate 11 (Except.ok v) ++
        [Except.error "worker failed"])).monthlyCount = 11 ∧
    (runYearMonthly outcomes).monthlyCount =
      (outcomes.filterMap annualOutcome).length ∧
    (cityAnnualSummaryOf "city" 2020 2024
        (List.replicate 11 (Except.ok (⟨v, 0, 0, 0, 0, 0, 0⟩ : MonthEntry)) ++
          [Except.error "worker failed"])
        [] none).baselineVegetation = 11 * v / 12 := by
  have hfm : (List.replicate 11 (Except.ok v) ++
      [Except.error "worker failed"]).filterMap annualOutcome = List.replicate 11 v := by
    rw [List.filterMap_append, filterMap_annualOutcome_replicate]
    simp [annualOutcome]
  refine ⟨?_, ?_, runYearMonthly_count outcomes, ?_⟩
  · unfold runYearMonthly
    simp only [hfm, foldl_add_eq, zero_add, List.length_replicate, List.sum_replicate]
    norm_num [mul_comm]
  · rw [runYearMonthly_count, hfm, List.length_replicate]
  · rw [cityAnnualSummaryOf_baseVeg]
    simp [avg, List.map_replicate, batchOutcome, zeroMonthEntry, foldl_add_eq,
      List.sum_replicate]
    ring

/-- The percent-change formula in the shape the spec writes it. -/
lemma percentChange_shape (b c : ℚ) :
    (if b ≠ 0 then (c - b) / b * 100 else 0) =
      (if b = 0 then 0 else (c - b) / b * 100) := by
  by_cases hb : b = 0 <;> simp [hb]

/-- C6: over 12 successful months per role, the role means are the exact
arithmetic means of the monthly vegetation values, and percent change —
in both the annual comparison object and a batch city summary — is 0
when the baseline mean is 0 and `(compare − baseline)/baseline × 100`
otherwise. -/
theorem C6_means_and_percent_change (y1 y2 : Int) (bs cs : List ℚ)
    (hb : bs.length = 12) (hc : cs.length = 12) :
    (runYearMonthly (bs.map Except.ok)).averageVegetation = bs.sum / 12 ∧
    (runYearMonthly (cs.map Except.ok)).averageVegetation = cs.sum / 12 ∧
    (mkAnnualComparison y1 y2 (runYearMonthly (bs.map Except.ok))
        (runYearMonthly (cs.map Except.ok))).percentChange =
      (if bs.sum / 12 = 0 then 0
       else (cs.sum / 12 - bs.sum / 12) / (bs.sum / 12) * 100) ∧
    (cityAnnualSummaryOf "c" y1 y2
        (bs.map (fun v => Except.ok (⟨v, 0, 0, 0, 0, 0, 0⟩ : MonthEntry)))
        (cs.map (fun v => Except.ok (⟨v, 0, 0, 0, 0, 0, 0⟩ : MonthEntry)))
        none).percentChange =
      (if bs.sum / 12 = 0 then 0
       else (cs.sum / 12 - bs.sum / 12) / (bs.sum / 12) * 100) := by
  have hbm : (runYearMonthly (bs.map Except.ok)).averageVegetation = bs.sum / 12 := by
    rw [runYearMonthly_map_ok bs (by omega), hb]; norm_num
  have hcm : (runYearMonthly (cs.map Except.ok)).averageVegetation = cs.sum / 12 := by
    rw [runYearMonthly_map_ok cs (by omega), hc]; norm_num
  have hveg : ∀ l : List ℚ,
      ((l.map (fun v => Except.ok (⟨v, 0, 0, 0, 0, 0, 0⟩ : MonthEntry))).map
        batchOutcome).map MonthEntry.veg = l := by
    intro l
    induction l with
    | nil => rfl
    | cons x xs ih =>
      simp only [List.map_cons, ih]
      rfl
  have havg : ∀ l : List ℚ, l.length = 12 → avg l = l.sum / 12 := by
    intro l hl
    unfold avg
    rw [if_neg (by omega), foldl_add_eq, zero_add, hl]
    norm_num
  refine ⟨hbm, hcm, ?_, ?_⟩
  · have hshape : (mkAnnualComparison y1 y2 (runYearMonthly (bs.map Except.ok))
        (runYearMonthly (cs.map Except.ok))).percentChange =
        (if (runYearMonthly (bs.map Except.ok)).averageVegetation ≠ 0 then
          ((runYearMonthly (cs.map Except.ok)).averageVegetation -
              (runYearMonthly (bs.map Except.ok)).averageVegetation) /
            (runYearMonthly (bs.map Except.ok)).averageVegetation * 100
         else 0) := rfl
    rw [hshape, hbm, hcm, percentChange_shape]
  · rw [cityAnnualSummaryOf_pctChange, hveg bs, hveg cs, havg bs hb, havg cs hc,
      percentChange_shape]

/-- Witness for C6 at the spec's scenario: baseline 0.30 for all 12
months and compare 0.33 for all 12 months give means 0.30 and 0.33 and
percent change exactly +10. -/
theorem C6_witness :
    (List.replicate 12 ((3 : ℚ) / 10)).length = 12 ∧
    (List.replicate 12 ((33 : ℚ) / 100)).length = 12 ∧
    ((runYearMonthly ((List.replicate 12 ((3 : ℚ) / 10)).map
        Except.ok)).averageVegetation =
      (List.replicate 12 ((3 : ℚ) / 10)).sum / 12 ∧
     (runYearMonthly ((List.replicate 12 ((33 : ℚ) / 100)).map
        Except.ok)).averageVegetation =
      (List.replicate 12 ((33 : ℚ) / 100)).sum / 12 ∧
     (mkAnnualComparison 2020 2024
        (runYearMonthly ((List.replicate 12 ((3 : ℚ) / 10)).map Except.ok))
        (runYearMonthly ((List.replicate 12 ((33 : ℚ) / 100)).map
          Except.ok))).percentChange =
      (if (List.replicate 12 ((3 : ℚ) / 10)).sum / 12 = 0 then 0
       else ((List.replicate 12 ((33 : ℚ) / 100)).sum / 12 -
          (List.replicate 12 ((3 : ℚ) / 10)).sum / 12) /
         ((List.replicate 12 ((3 : ℚ) / 10)).sum / 12) * 100) ∧
     (cityAnnualSummaryOf "c" 2020 2024
        ((List.replicate 12 ((3 : ℚ) / 10)).map
          (fun v => Except.ok (⟨v, 0, 0, 0, 0, 0, 0⟩ : MonthEntry)))
        ((List.replicate 12 ((33 : ℚ) / 100)).map
          (fun v => Except.ok (⟨v, 0, 0, 0, 0, 0, 0⟩ : MonthEntry)))
        none).percentChange =
      (if (List.replicate 12 ((3 : ℚ) / 10)).sum / 12 = 0 then 0
       else ((List.replicate 12 ((33 : ℚ) / 100)).sum / 12 -
          (List.replicate 12 ((3 : ℚ) / 10)).sum / 12) /
         ((List.replicate 12 ((3 : ℚ) / 10)).sum / 12) * 100)) ∧
    (mkAnnualComparison 2020 2024
      (runYearMonthly ((List.replicate 12 ((3 : ℚ) / 10)).map Except.ok))
      (runYearMonthly ((List.replicate 12 ((33 : ℚ) / 100)).map
        Except.ok))).percentChange = 10 := by
  have h1 : (List.replicate 12 ((3 : ℚ) / 10)).length = 12 := by simp
  have h2 : (List.replicate 12 ((33 : ℚ) / 100)).length = 12 := by simp
  have main := C6_means_and_percent_change 2020 2024
    (List.replicate 12 ((3 : ℚ) / 10)) (List.replicate 12 ((33 : ℚ) / 100)) h1 h2
  refine ⟨h1, h2, main, ?_⟩
  rw [main.2.2.1]
  rw [List.sum_replicate, List.sum_replicate]
  norm_num

/-- C8 counterexample: a failed batch-mode unit does not contribute
"nothing" — it contributes a zero-valued entry that changes the mean.
With 3 successful months of value 2 and 1 failed month, the baseline
mean becomes 3/2, not the mean 2 of the produced results. -/
theorem C8_counterexample_failure_contributes :
    batchOutcome (Except.error "worker failed") = zeroMonthEntry ∧
    (cityAnnualSummaryOf "city" 2020 2024
        (List.replicate 3 (Except.ok (⟨2, 0, 0, 0, 0, 0, 0⟩ : MonthEntry)) ++
          [Except.error "worker failed"])
        (List.replicate 4 (Except.ok (⟨2, 0, 0, 0, 0, 0, 0⟩ : MonthEntry)))
        none).baselineVegetation = 3 / 2 ∧
    avg (List.replicate 3 (2 : ℚ)) = 2 ∧
    ((3 : ℚ) / 2 ≠ 2) := by
  refine ⟨rfl, ?_, ?_, by norm_num⟩
  · rw [cityAnnualSummaryOf_baseVeg]
    simp [avg, List.map_replicate, batchOutcome, zeroMonthEntry, foldl_add_eq,
      List.sum_replicate]
    norm_num
  · simp [avg, foldl_add_eq, List.sum_replicate]
    norm_num

lemma getLast?_cons_concat (a b : StatusUpdate) (l : List StatusUpdate) :
    (a :: (l ++ [b])).getLast? = some b := by
  rw [← List.cons_append, List.getLast?_concat]

/-- C8 amended: a worker failure is swallowed in annual mode (the month
is skipped: the month count only counts successful months) and in batch
mode (the month becomes a zero-valued entry); in both modes the run
still ends with the terminal `completed` update.  In single-range mode
the rejection is not wrapped: the trace ends with the `failed` update
carrying `Processing failed: <the error's message>`. -/
theorem C8_amended_failure_handling (r : PyRun) (collected : JobResult)
    (now : Nat) (msg : String)
    (hfail : pyRunOutcome "satellite_processor_fixed.py" r = Except.error msg)
    (events : List AnnualEvent) (y1 y2 : Int)
    (baseOutcomes compOutcomes : List (Except String ℚ))
    (outputFiles : List String) (changeViz : Option String)
    (previews : List Preview)
    (bEvents : List BatchEvent) (summaries : List CityAnnualSummary) :
    (singleRangeTrace r collected now).getLast? =
      some (jobFailedUpdate now msg) ∧
    (jobFailedUpdate now msg).status = some .failed ∧
    (jobFailedUpdate now msg).message = some ("Processing failed: " ++ msg) ∧
    (annualTrace events y1 y2 baseOutcomes compOutcomes outputFiles changeViz
        previews now).getLast? =
      some (annualCompletedUpdate y1 y2 baseOutcomes compOutcomes outputFiles
        changeViz previews now) ∧
    (annualCompletedUpdate y1 y2 baseOutcomes compOutcomes outputFiles changeViz
        previews now).status = some .completed ∧
    (batchTrace bEvents summaries now).getLast? =
      some (batchCompletedUpdate summaries now) ∧
    (batchCompletedUpdate summaries now).status = some .completed ∧
    (runYearMonthly baseOutcomes).monthlyCount =
      (baseOutcomes.filterMap annualOutcome).length ∧
    batchOutcome (Except.error msg) = zeroMonthEntry := by
  refine ⟨?_, rfl, rfl, ?_, rfl, ?_, rfl, runYearMonthly_count baseOutcomes, rfl⟩
  · unfold singleRangeTrace
    rw [hfail]
    exact getLast?_cons_concat _ _ _
  · unfold annualTrace
    exact getLast?_cons_concat _ _ _
  · unfold batchTrace
    exact getLast?_cons_concat _ _ _

/-- Witness for C8's amended theorem at a concrete failing worker. -/
theorem C8_amended_witness :
    pyRunOutcome "satellite_processor_fixed.py" (⟨[], 1, "boom"⟩ : PyRun) =
      Except.error
        "Python script satellite_processor_fixed.py failed with code 1: boom" ∧
    ((singleRangeTrace ⟨[], 1, "boom"⟩ (batchResultOf []) 7).getLast? =
        some (jobFailedUpdate 7
          "Python script satellite_processor_fixed.py failed with code 1: boom") ∧
      (jobFailedUpdate 7
          "Python script satellite_processor_fixed.py failed with code 1: boom").status =
        some .failed ∧
      (jobFailedUpdate 7
          "Python script satellite_processor_fixed.py failed with code 1: boom").message =
        some ("Processing failed: " ++
          "Python script satellite_processor_fixed.py failed with code 1: boom") ∧
      (annualTrace [] 2020 2024 [] [] [] none [] 7).getLast? =
        some (annualCompletedUpdate 2020 2024 [] [] [] none [] 7) ∧
      (annualCompletedUpdate 2020 2024 [] [] [] none [] 7).status =
        some .completed ∧
      (batchTrace [] [] 7).getLast? = some (batchCompletedUpdate [] 7) ∧
      (batchCompletedUpdate [] 7).status = some .completed ∧
      (runYearMonthly []).monthlyCount = (([] : List (Except String ℚ)).filterMap
        annualOutcome).length ∧
      batchOutcome (Except.error
          "Python script satellite_processor_fixed.py failed with code 1: boom") =
        zeroMonthEntry) :=
  ⟨rfl, C8_amended_failure_handling ⟨[], 1, "boom"⟩ (batchResultOf []) 7 _ rfl
    [] 2020 2024 [] [] [] none [] [] []⟩

/-! ## C9: no mutation after a terminal status -/

lemma annualEventUpdate_not_terminal (e : AnnualEvent) :
    isTerminalUpdate (annualEventUpdate e) = false := by
  cases e <;> rfl

lemma batchEventUpdate_not_terminal (e : BatchEvent) :
    isTerminalUpdate (batchEventUpdate e) = false := by
  cases e <;> rfl

lemma pyRunUpdates_not_terminal (s : String) (r : PyRun) (u : StatusUpdate)
    (hu : u ∈ pyRunUpdates s r) : isTerminalUpdate u = false := by
  unfold pyRunUpdates at hu
  rcases List.mem_filterMap.mp hu with ⟨line, _, hline⟩
  rcases Option.map_eq_some'.mp hline with ⟨p, _, hp⟩
  rw [← hp]
  rfl

lemma terminalOnlyLast_shape (mid : List StatusUpdate) (x : StatusUpdate)
    (hmid : ∀ u ∈ mid, isTerminalUpdate u = false) :
    terminalOnlyLast (initialUpdate :: (mid ++ [x])) = true := by
  unfold terminalOnlyLast
  rw [← List.cons_append, List.dropLast_concat, List.all_eq_true]
  intro u hu
  rcases List.mem_cons.mp hu with h | h
  · subst h; rfl
  · rw [hmid u h]; rfl

/-- C9: in every mode's registry-update trace, the terminal status is
written only by the very last update — no earlier update writes
`completed` or `failed` — and once the trace is exhausted the store no
longer changes, so any two reads after the final update observe the
identical snapshot. -/
theorem C9_terminal_is_final (r : PyRun) (collected : JobResult) (now : Nat)
    (events : List AnnualEvent) (y1 y2 : Int)
    (baseOutcomes compOutcomes : List (Except String ℚ))
    (outputFiles : List String) (changeViz : Option String)
    (previews : List Preview)
    (bEvents : List BatchEvent) (summaries : List CityAnnualSummary)
    (store : Store) (id : String) (tr : List StatusUpdate) (k1 k2 : Nat)
    (h1 : tr.length ≤ k1) (h2 : k1 ≤ k2) :
    terminalOnlyLast (singleRangeTrace r collected now) = true ∧
    terminalOnlyLast (annualTrace events y1 y2 baseOutcomes compOutcomes
      outputFiles changeViz previews now) = true ∧
    terminalOnlyLast (batchTrace bEvents summaries now) = true ∧
    getProcessingJob (applyUpdates store id (tr.take k1)) id =
      getProcessingJob (applyUpdates store id (tr.take k2)) id := by
  refine ⟨?_, ?_, ?_, ?_⟩
  · unfold singleRangeTrace
    exact terminalOnlyLast_shape _ _ (fun u hu => pyRunUpdates_not_terminal _ r u hu)
  · unfold annualTrace
    refine terminalOnlyLast_shape _ _ ?_
    intro u hu
    rcases List.mem_map.mp hu with ⟨e, _, he⟩
    rw [← he]
    exact annualEventUpdate_not_terminal e
  · unfold batchTrace
    refine terminalOnlyLast_shape _ _ ?_
    intro u hu
    rcases List.mem_map.mp hu with ⟨e, _, he⟩
    rw [← he]
    exact batchEventUpdate_not_terminal e
  · rw [List.take_of_length_le h1, List.take_of_length_le (h1.trans h2)]

/-- Witness for C9 at concrete traces. -/
theorem C9_witness :
    ([] : List StatusUpdate).length ≤ 0 ∧ 0 ≤ 1 ∧
    (terminalOnlyLast (singleRangeTrace decreasingRun (batchResultOf []) 7) = true ∧
      terminalOnlyLast (annualTrace [] 2020 2024 [] [] [] none [] 7) = true ∧
      terminalOnlyLast (batchTrace [] [] 7) = true ∧
      getProcessingJob (applyUpdates store0 "job-1"
        (([] : List StatusUpdate).take 0)) "job-1" =
        getProcessingJob (applyUpdates store0 "job-1"
          (([] : List StatusUpdate).take 1)) "job-1") :=
  ⟨Nat.le_refl 0, Nat.zero_le 1,
    C9_terminal_is_final decreasingRun (batchResultOf []) 7 [] 2020 2024 [] [] []
      none [] [] [] store0 "job-1" [] 0 1 (Nat.le_refl 0) (Nat.zero_le 1)⟩

/-! ## C4 and C10: worker pool -/

/-- Invariant of every reachable pool state. -/
structure PoolInv (f : Nat → α) (limit n : Nat) (s : PoolState α) : Prop where
  active_le : s.active.length ≤ limit
  idx_le : s.nextIdx ≤ n
  saturated : s.nextIdx < n → s.active.length = limit
  count : s.results.length + s.active.length = s.nextIdx
  perm : (s.results ++ s.active.map f).Perm ((List.range s.nextIdx).map f)

lemma fill_inv (f : Nat → α) (limit n : Nat) (s : PoolState α)
    (hal : s.active.length ≤ limit) (hidx : s.nextIdx ≤ n)
    (hcount : s.results.length + s.active.length = s.nextIdx)
    (hperm : (s.results ++ s.active.map f).Perm ((List.range s.nextIdx).map f)) :
    PoolInv f limit n (fill limit n s) := by
  have hk1 : min (limit - s.active.length) (n - s.nextIdx) ≤
      limit - s.active.length := Nat.min_le_left _ _
  have hk2 : min (limit - s.active.length) (n - s.nextIdx) ≤
      n - s.nextIdx := Nat.min_le_right _ _
  have hchoice := min_choice (limit - s.active.length) (n - s.nextIdx)
  have hlen : (fill limit n s).active.length =
      s.active.length + min (limit - s.active.length) (n - s.nextIdx) := by
    simp [fill]
  have hidx2 : (fill limit n s).nextIdx =
      s.nextIdx + min (limit - s.active.length) (n - s.nextIdx) := rfl
  have hres : (fill limit n s).results = s.results := rfl
  refine ⟨?_, ?_, ?_, ?_, ?_⟩
  · rw [hlen]; omega
  · rw [hidx2]; omega
  · intro hlt
    rw [hidx2] at hlt
    rw [hlen]
    rcases hchoice with h | h <;> omega
  · rw [hres, hlen, hidx2]; omega
  · rw [hres, hidx2]
    show (s.results ++ (s.active ++
        (List.range (min (limit - s.active.length) (n - s.nextIdx))).map
          (fun j => s.nextIdx + j)).map f).Perm _
    rw [List.map_append, ← List.append_assoc, List.range_add, List.map_append,
      List.map_map]
    exact hperm.append_right _

/-- Every reachable state of `runWithConcurrency` satisfies the pool
invariant. -/
lemma reaches_inv (f : Nat → α) (limit n : Nat) (s : PoolState α)
    (h : Reaches f limit n s) : PoolInv f limit n s := by
  induction h with
  | init =>
    exact fill_inv f limit n ⟨0, [], []⟩ (by simp) (by simp) (by simp) (by simp)
  | step s0 j hj hr ih =>
    have hpos : 0 < s0.active.length := List.length_pos_of_mem hj
    have hel : (s0.active.erase j).length = s0.active.length - 1 :=
      List.length_erase_of_mem hj
    refine fill_inv f limit n _ ?_ ?_ ?_ ?_
    · show (s0.active.erase j).length ≤ limit
      rw [hel]
      have := ih.active_le
      omega
    · exact ih.idx_le
    · show (s0.results ++ [f j]).length + (s0.active.erase j).length = s0.nextIdx
      rw [List.length_append, hel]
      have := ih.count
      simp only [List.length_cons, List.length_nil]
      omega
    · show ((s0.results ++ [f j]) ++ (s0.active.erase j).map f).Perm _
      have hp : (s0.active.map f).Perm (f j :: (s0.active.erase j).map f) :=
        (List.perm_cons_erase hj).map f
      have step1 : (s0.results ++ [f j]) ++ (s0.active.erase j).map f =
          s0.results ++ (f j :: (s0.active.erase j).map f) := by
        rw [List.append_assoc]; rfl
      rw [step1]
      exact (List.Perm.append_left _ hp.symm).trans ih.perm

/-- C4: for every concurrency limit N in [1, 12] and every reachable
state of `runWithConcurrency`, at most N unit executions are active; as
long as factories remain queued, every freed slot is refilled (the
active count sits exactly at N); and the resolution condition can only
hold once all n submitted factories have settled (their results are all
in the `results` array). -/
theorem C4_pool_bounded (f : Nat → ℚ) (limit n : Nat) (s : PoolState ℚ)
    (h : Reaches f limit n s) (_hN1 : 1 ≤ limit) (_hN12 : limit ≤ 12) :
    s.active.length ≤ limit ∧
    (s.nextIdx < n → s.active.length = limit) ∧
    (poolResolved n s = true → s.results.length = n) := by
  have inv := reaches_inv f limit n s h
  refine ⟨inv.active_le, inv.saturated, ?_⟩
  intro hres
  unfold poolResolved at hres
  rw [Bool.and_eq_true, decide_eq_true_eq, List.isEmpty_iff] at hres
  rcases hres with ⟨hn, hempty⟩
  have hcount := inv.count
  have hidx := inv.idx_le
  rw [hempty] at hcount
  simp only [List.length_nil] at hcount
  omega

/-- Witness for C4: the state reached by the initial `schedule()` with
limit 2 over 3 factories. -/
theorem C4_pool_bounded_witness :
    Reaches (fun i => (i : ℚ)) 2 3 ⟨2, [0, 1], []⟩ ∧ 1 ≤ 2 ∧ 2 ≤ 12 ∧
    ((⟨2, [0, 1], []⟩ : PoolState ℚ).active.length ≤ 2 ∧
      ((⟨2, [0, 1], []⟩ : PoolState ℚ).nextIdx < 3 →
        (⟨2, [0, 1], []⟩ : PoolState ℚ).active.length = 2) ∧
      (poolResolved 3 (⟨2, [0, 1], []⟩ : PoolState ℚ) = true →
        (⟨2, [0, 1], []⟩ : PoolState ℚ).results.length = 3)) := by
  have hfill : fill 2 3 (⟨0, [], []⟩ : PoolState ℚ) = ⟨2, [0, 1], []⟩ := by decide
  have hreach : Reaches (fun i => (i : ℚ)) 2 3 ⟨2, [0, 1], []⟩ := by
    rw [← hfill]; exact Reaches.init
  exact ⟨hreach, by norm_num, by norm_num,
    C4_pool_bounded (fun i => (i : ℚ)) 2 3 _ hreach (by norm_num) (by norm_num)⟩

/-- C10: the `results` array a pool run resolves with is a permutation
of the submitted tasks' results ordered by completion, not by
submission: every resolved state's results are exactly the results of
tasks 0..n-1 in some order, and with limit 2 over 2 distinct tasks the
pool can resolve with `[1, 0]`, the reverse of submission order. -/
theorem C10_completion_order (f : Nat → ℚ) (limit n : Nat) (s : PoolState ℚ)
    (h : Reaches f limit n s) (hres : poolResolved n s = true) :
    s.results.Perm ((List.range n).map f) ∧
    (Reaches (fun i => i) 2 2 (⟨2, [], [1, 0]⟩ : PoolState Nat) ∧
      poolResolved 2 (⟨2, [], [1, 0]⟩ : PoolState Nat) = true ∧
      (⟨2, [], [1, 0]⟩ : PoolState Nat).results ≠
        (List.range 2).map (fun i => i)) := by
  constructor
  · have inv := reaches_inv f limit n s h
    unfold poolResolved at hres
    rw [Bool.and_eq_true, decide_eq_true_eq, List.isEmpty_iff] at hres
    rcases hres with ⟨hn, hempty⟩
    have hidx := inv.idx_le
    have hperm := inv.perm
    rw [hempty] at hperm
    simp only [List.map_nil, List.append_nil] at hperm
    have hn2 : s.nextIdx = n := by omega
    rw [hn2] at hperm
    exact hperm
  · have h0 : Reaches (fun i => i) 2 2 (⟨2, [0, 1], []⟩ : PoolState Nat) := by
      have e : fill 2 2 (⟨0, [], []⟩ : PoolState Nat) = ⟨2, [0, 1], []⟩ := by decide
      rw [← e]; exact Reaches.init
    have h1 : Reaches (fun i => i) 2 2 (⟨2, [0], [1]⟩ : PoolState Nat) := by
      have e : fill 2 2 (⟨2, ([0, 1] : List Nat).erase 1,
          ([] : List Nat) ++ [(fun i => i) 1]⟩ : PoolState Nat) = ⟨2, [0], [1]⟩ := by
        decide
      rw [← e]; exact Reaches.step _ 1 (by decide) h0
    have h2 : Reaches (fun i => i) 2 2 (⟨2, [], [1, 0]⟩ : PoolState Nat) := by
      have e : fill 2 2 (⟨2, ([0] : List Nat).erase 0,
          ([1] : List Nat) ++ [(fun i => i) 0]⟩ : PoolState Nat) = ⟨2, [], [1, 0]⟩ := by
        decide
      rw [← e]; exact Reaches.step _ 0 (by decide) h1
    exact ⟨h2, by decide, by decide⟩

/-- Witness for C10 at a resolved concrete run (zero tasks resolve with
the empty results array). -/
theorem C10_completion_order_witness :
    Reaches (fun i => (i : ℚ)) 2 0 (⟨0, [], []⟩ : PoolState ℚ) ∧
    poolResolved 0 (⟨0, [], []⟩ : PoolState ℚ) = true ∧
    ((⟨0, [], []⟩ : PoolState ℚ).results.Perm ((List.range 0).map
        (fun i => (i : ℚ))) ∧
      (Reaches (fun i => i) 2 2 (⟨2, [], [1, 0]⟩ : PoolState Nat) ∧
        poolResolved 2 (⟨2, [], [1, 0]⟩ : PoolState Nat) = true ∧
        (⟨2, [], [1, 0]⟩ : PoolState Nat).results ≠
          (List.range 2).map (fun i => i))) := by
  have hfill : fill 2 0 (⟨0, [], []⟩ : PoolState ℚ) = ⟨0, [], []⟩ := by decide
  have hreach : Reaches (fun i => (i : ℚ)) 2 0 ⟨0, [], []⟩ := by
    rw [← hfill]; exact Reaches.init
  exact ⟨hreach, by decide,
    C10_completion_order (fun i => (i : ℚ)) 2 0 _ hreach (by decide)⟩

end Greenspace
